import Mathlib

/-!
Verification development for the cloudfoundry v2 client
(src/cloudfoundryclient/v2/client.py).

The embedding models JSON response bodies as association lists of
string keys to string values (the fields the client reads are all
string valued), the mutable client object as an explicit state record,
and the network as an oracle giving the body of the i-th GET and the
response to the i-th login POST. Network traffic is counted in a
NetState record so that claims about the number of requests issued are
statable. The retry recursion of issue_request in the source has no
bound (its attemps parameter is never read), so it is rendered with an
explicit fuel argument: a diverge outcome means the source code would
still be recursing after that many attempts.
-/

namespace CloudFoundry

/-- A parsed JSON object body: association list from keys to values. -/
abbrev Jobj := List (String × String)

/-- Dictionary read: first binding of the key, as Python d[k] / k in d. -/
def jget : Jobj → String → Option String
  | [], _ => none
  | (k, v) :: rest, key => if k = key then some v else jget rest key

/-- Dictionary write, as Python d[k] = v: replace in place when the key is
present, append otherwise (Python dicts keep insertion order). -/
def hset (h : Jobj) (k v : String) : Jobj :=
  if h.any (fun p => p.1 = k) then
    h.map (fun p => if p.1 = k then (k, v) else p)
  else h ++ [(k, v)]

/-- The exceptions the client can raise. -/
inductive CFError where
  | loginError (text : String)
  | notLoggedIn
  | keyError (key : String)
  | usageError
deriving Repr, DecidableEq

/-- Outcome of a fuel-bounded run: normal return, raised exception, or
fuel exhausted (the source would still be recursing). -/
inductive RunResult (α : Type) where
  | ok (a : α)
  | err (e : CFError)
  | diverge
deriving Repr, DecidableEq

/-- An HTTP response as the client observes it: status code, raw text,
and parsed JSON body. -/
structure HttpResponse where
  status_code : Nat
  text : String
  jsonBody : Jobj
deriving Repr, DecidableEq

/-- The mutable fields of a Client instance. -/
structure ClientState where
  base_url : String
  username : String
  password : String
  server_api_info : Jobj
  auth_data : Option Jobj
deriving Repr, DecidableEq

/-- Count of network requests issued so far: GETs through issue_request
and login POSTs. -/
structure NetState where
  getCount : Nat
  loginCount : Nat
deriving Repr, DecidableEq

/-- The network oracle: body of the i-th dispatched GET, and response to
the i-th login POST. -/
structure World where
  getResponse : Nat → Jobj
  loginResponse : Nat → HttpResponse

/-- Client.USER_AGENT. -/
def USER_AGENT : String := "python-cloudfoundryclient"

/-- Client.info_url. -/
def info_url : String := "/v2/info"

/-- Client.auth_token_url. -/
def auth_token_url : String := "/oauth/token"

/-- Client.organizations_url. -/
def organizations_url : String := "/v2/organizations"

/-- Client.organization_summary_url applied to a guid. -/
def organization_summary_url (guid : String) : String :=
  "/v2/organizations/" ++ guid ++ "/summary"

/-- Client._get_headers. -/
def get_headers : Jobj :=
  [("Accept", "application/json"),
   ("Content-Type", "application/json"),
   ("User-Agent", USER_AGENT)]

/-- Client.get_info: returns the parsed body of the discovery response,
ignoring its status. -/
def get_info (resp : HttpResponse) : Jobj := resp.jsonBody

/-- Client.__init__: stores credentials and base url, fetches server
info once via get_info, and starts with auth_data = None. -/
def mkClient (username password base_url : String) (infoResp : HttpResponse) : ClientState :=
  { base_url := base_url
    username := username
    password := password
    server_api_info := get_info infoResp
    auth_data := none }

/-- The outbound login POST built by Client.login: url, headers, body. -/
structure LoginRequest where
  url : String
  headers : Jobj
  payload : String
deriving Repr, DecidableEq

/-- The request-building half of Client.login lines 65-72: special
headers, form-encoded payload, url from the token_endpoint of the
server info. A missing token_endpoint is a KeyError. -/
def loginRequest (st : ClientState) : Except CFError LoginRequest :=
  let headers := hset (hset get_headers "Authorization" "Basic Y2Y6")
    "Content-Type" "application/x-www-form-urlencoded"
  let payload := "grant_type=password&password=" ++ st.password ++
    "&scope=&username=" ++ st.username
  match jget st.server_api_info "token_endpoint" with
  | none => .error (.keyError "token_endpoint")
  | some te => .ok { url := te ++ auth_token_url, headers := headers, payload := payload }

/-- The response-handling half of Client.login lines 74-79: any status
other than requests.codes.ok (200) raises LoginError carrying the raw
response text and leaves the state untouched; 200 stores the parsed
body wholesale as the new auth_data and returns it. -/
def loginRespond (st : ClientState) (r : HttpResponse) : ClientState × Except CFError Jobj :=
  if r.status_code ≠ 200 then (st, .error (.loginError r.text))
  else ({ st with auth_data := some r.jsonBody }, .ok r.jsonBody)

/-- Client.login: build the request, issue the POST (counted in
NetState), handle the response. -/
def login (w : World) (st : ClientState) (ns : NetState) :
    ClientState × NetState × Except CFError Jobj :=
  match loginRequest st with
  | .error e => (st, ns, .error e)
  | .ok _req =>
    let resp := w.loginResponse ns.loginCount
    let ns' : NetState := { ns with loginCount := ns.loginCount + 1 }
    let (st', out) := loginRespond st resp
    (st', ns', out)

/-- Client.logout: clear auth_data unconditionally. -/
def logout (st : ClientState) : ClientState := { st with auth_data := none }

/-- Client._check_logged_in: raises NotLoggedIn when auth_data is falsy,
that is None or an empty dict. -/
def check_logged_in (st : ClientState) : Except CFError Unit :=
  match st.auth_data with
  | none => .error .notLoggedIn
  | some d => if d.isEmpty then .error .notLoggedIn else .ok ()

/-- The Authorization value token_type SP access_token read from an
auth_data body; a missing field is a KeyError, as in Python. -/
def authHeaderValue (ad : Jobj) : Except CFError String :=
  match jget ad "token_type" with
  | none => .error (.keyError "token_type")
  | some t =>
    match jget ad "access_token" with
    | none => .error (.keyError "access_token")
    | some a => .ok (t ++ " " ++ a)

/-- Client._generic_request_headers: the logged-in check, then the base
headers with Authorization set from the stored auth_data. -/
def generic_request_headers (st : ClientState) : Except CFError Jobj :=
  match check_logged_in st with
  | .error e => .error e
  | .ok _ =>
    match st.auth_data with
    | none => .error .notLoggedIn
    | some ad =>
      match authHeaderValue ad with
      | .error e => .error e
      | .ok v => .ok (hset get_headers "Authorization" v)

/-- Client._check_expired_token: when the body carries
error_code = CF-InvalidAuthToken, call login (mutating state and
counters) and report true; otherwise report false. -/
def check_expired_token (w : World) (st : ClientState) (ns : NetState) (response : Jobj) :
    ClientState × NetState × Except CFError Bool :=
  if jget response "error_code" = some "CF-InvalidAuthToken" then
    match login w st ns with
    | (st', ns', .error e) => (st', ns', .error e)
    | (st', ns', .ok _) => (st', ns', .ok true)
  else (st, ns, .ok false)

/-- Client._issue_request. The source recursion has no bound: the
attemps parameter is accepted but never read or incremented, and the
recursive call passes only (method, url, headers). Fuel renders that
recursion: each call consumes one unit, and a diverge outcome means
the source would still be recursing after that many attempts. Falsy
(absent or empty) headers are rebuilt via generic_request_headers; a
non-GET method raises; a sentinel-bearing body triggers login, an
Authorization rebuild on the same headers dict, and the recursive
call. -/
def issue_request (w : World) :
    Nat → ClientState → NetState → String → String → Option Jobj →
    ClientState × NetState × RunResult Jobj
  | 0, st, ns, _, _, _ => (st, ns, .diverge)
  | fuel + 1, st, ns, method, url, headersArg =>
    let hres : Except CFError Jobj :=
      match headersArg with
      | none => generic_request_headers st
      | some h => if h.isEmpty then generic_request_headers st else .ok h
    match hres with
    | .error e => (st, ns, .err e)
    | .ok headers =>
      if method = "GET" then
        let response := w.getResponse ns.getCount
        let ns₁ : NetState := { ns with getCount := ns.getCount + 1 }
        match check_expired_token w st ns₁ response with
        | (st₁, ns₂, .error e) => (st₁, ns₂, .err e)
        | (st₁, ns₂, .ok true) =>
          match st₁.auth_data with
          | none => (st₁, ns₂, .err (.keyError "auth_data"))
          | some ad =>
            match authHeaderValue ad with
            | .error e => (st₁, ns₂, .err e)
            | .ok v =>
              issue_request w fuel st₁ ns₂ method url (some (hset headers "Authorization" v))
        | (st₁, ns₂, .ok false) => (st₁, ns₂, .ok response)
      else (st, ns, .err .usageError)

/-- Client.get_organizations: GET base_url + organizations_url through
the dispatcher. -/
def get_organizations (w : World) (fuel : Nat) (st : ClientState) (ns : NetState) :
    ClientState × NetState × RunResult Jobj :=
  issue_request w fuel st ns "GET" (st.base_url ++ organizations_url) none

/-- Client.get_organization_summary for a guid. -/
def get_organization_summary (w : World) (fuel : Nat) (st : ClientState) (ns : NetState)
    (guid : String) : ClientState × NetState × RunResult Jobj :=
  issue_request w fuel st ns "GET" (st.base_url ++ organization_summary_url guid) none

/-! Concrete fixtures used in witnesses and counterexamples. -/

/-- A well-formed token response body. -/
def tokBody : Jobj := [("token_type", "bearer"), ("access_token", "tok123")]

/-- A logged-in client against a server whose token endpoint is
https://uaa.example.com. -/
def stBase : ClientState :=
  { base_url := "https://api.example.com"
    username := "u"
    password := "p"
    server_api_info := [("token_endpoint", "https://uaa.example.com")]
    auth_data := some tokBody }

/-- Zero requests issued so far. -/
def ns0 : NetState := ⟨0, 0⟩

/-- A server whose every GET body carries the expired-token sentinel
while every login POST succeeds with a fresh token. -/
def sentinelWorld : World :=
  { getResponse := fun _ => [("error_code", "CF-InvalidAuthToken")]
    loginResponse := fun _ => ⟨200, "", tokBody⟩ }

/-- A server whose GETs succeed with an ordinary body. -/
def okWorld : World :=
  { getResponse := fun _ => [("name", "org1")]
    loginResponse := fun _ => ⟨200, "", tokBody⟩ }

/-- A server whose first GET carries the sentinel and whose second GET
succeeds, with logins succeeding. -/
def retryWorld : World :=
  { getResponse := fun i =>
      if i = 0 then [("error_code", "CF-InvalidAuthToken")] else [("name", "org1")]
    loginResponse := fun _ => ⟨200, "", tokBody⟩ }

/-- A server answering every login POST with status 201 and body
bad credentials: a 2xx status that is not 200. -/
def badLoginWorld : World :=
  { getResponse := fun _ => []
    loginResponse := fun _ => ⟨201, "bad credentials", []⟩ }

/-- A server answering every login POST with 200 and an empty JSON
object body. -/
def emptyLoginWorld : World :=
  { getResponse := fun _ => []
    loginResponse := fun _ => ⟨200, "", []⟩ }

/-- A server rejecting every login POST with 401. -/
def unauthorizedWorld : World :=
  { getResponse := fun _ => []
    loginResponse := fun _ => ⟨401, "unauthorized", []⟩ }

/-- The headers of the fixture client once Authorization is filled in
from tokBody. -/
def hAuth : Jobj := get_headers ++ [("Authorization", "bearer tok123")]

/-! Helper lemmas shared by several claim proofs. -/

/-- A key that is found implies a non-empty object. -/
theorem jget_isEmpty_false {d : Jobj} {k v : String} (h : jget d k = some v) :
    d.isEmpty = false := by
  cases d with
  | nil => simp [jget] at h
  | cons p rest => rfl

/-- Unfolding a successful login: the state is the old one with
auth_data replaced wholesale by the full parsed response body, the
login counter advances by one, and the returned body is the body of
the consumed login response. -/
theorem login_ok_eq {w : World} {st st1 : ClientState} {ns ns1 : NetState} {body : Jobj}
    (h : login w st ns = (st1, ns1, .ok body)) :
    st1 = { st with auth_data := some body }
    ∧ body = (w.loginResponse ns.loginCount).jsonBody
    ∧ ns1 = { ns with loginCount := ns.loginCount + 1 } := by
  unfold login at h
  cases hreq : loginRequest st with
  | error e => rw [hreq] at h; simp at h
  | ok req =>
    rw [hreq] at h
    unfold loginRespond at h
    by_cases hs : (w.loginResponse ns.loginCount).status_code = 200
    · simp [hs] at h
      obtain ⟨h1, h2, h3⟩ := h
      exact ⟨h1.symm ▸ (by rw [← h3]), h3.symm, h2.symm⟩
    · simp [hs] at h

/-- Unfolding a failed login: the state comes back unchanged. -/
theorem login_error_eq {w : World} {st st1 : ClientState} {ns ns1 : NetState} {e : CFError}
    (h : login w st ns = (st1, ns1, .error e)) : st1 = st := by
  unfold login at h
  cases hreq : loginRequest st with
  | error e2 => rw [hreq] at h; simp at h; exact h.1.symm
  | ok req =>
    rw [hreq] at h
    unfold loginRespond at h
    by_cases hs : (w.loginResponse ns.loginCount).status_code = 200
    · simp [hs] at h
    · simp [hs] at h; exact h.1.symm

/-- Every path through login only touches auth_data. -/
theorem login_frame {w : World} {st st1 : ClientState} {ns ns1 : NetState}
    {out : Except CFError Jobj} (h : login w st ns = (st1, ns1, out)) :
    st1 = { st with auth_data := st1.auth_data } := by
  cases out with
  | error e => rw [login_error_eq h]
  | ok body => rw [(login_ok_eq h).1]

/-- Every path through check_expired_token only touches auth_data. -/
theorem check_expired_token_frame {w : World} {st st1 : ClientState} {ns ns1 : NetState}
    {r : Jobj} {out : Except CFError Bool}
    (h : check_expired_token w st ns r = (st1, ns1, out)) :
    st1 = { st with auth_data := st1.auth_data } := by
  unfold check_expired_token at h
  by_cases hs : jget r "error_code" = some "CF-InvalidAuthToken"
  · rw [if_pos hs] at h
    cases hl : login w st ns with
    | mk stL rest =>
      obtain ⟨nsL, outL⟩ := rest
      rw [hl] at h
      cases outL with
      | error e => simp at h; exact h.1 ▸ login_frame hl
      | ok b => simp at h; exact h.1 ▸ login_frame hl
  · rw [if_neg hs] at h
    simp at h
    rw [← h.1]

/-- Composing two auth-data-only updates is an auth-data-only update. -/
theorem frame_trans {st st1 st2 : ClientState}
    (h1 : st1 = { st with auth_data := st1.auth_data })
    (h2 : st2 = { st1 with auth_data := st2.auth_data }) :
    st2 = { st with auth_data := st2.auth_data } := by
  cases st; cases st1; cases st2; simp_all

/-- Every path through issue_request only touches auth_data of the
client state, whatever the fuel, headers argument, method and url. -/
theorem issue_request_frame {w : World} :
    ∀ (fuel : Nat) (st : ClientState) (ns : NetState) (m u : String) (hh : Option Jobj)
      {st1 : ClientState} {ns1 : NetState} {res : RunResult Jobj},
      issue_request w fuel st ns m u hh = (st1, ns1, res) →
      st1 = { st with auth_data := st1.auth_data } := by
  intro fuel
  induction fuel with
  | zero =>
    intro st ns m u hh st1 ns1 res h
    simp [issue_request] at h
    rw [← h.1]
  | succ n ih =>
    intro st ns m u hh st1 ns1 res h
    unfold issue_request at h
    dsimp only at h
    repeat' split at h
    all_goals first
      | (simp at h; rw [← h.1]; done)
      | (simp at h; exact h.1 ▸ check_expired_token_frame (by assumption))
      | (exact frame_trans (check_expired_token_frame (by assumption)) (ih _ _ _ _ _ h))

/-- One retry round against the always-sentinel server, with the
Authorization header already in place, consumes one GET and one login
and comes back to the same state with the same headers. -/
theorem sentinel_round (n g l : Nat) (u : String) :
    issue_request sentinelWorld n stBase ⟨g, l⟩ "GET" u (some hAuth) =
    (stBase, ⟨g + n, l + n⟩, .diverge) := by
  induction n generalizing g l with
  | zero => rfl
  | succ n ih =>
    have step : issue_request sentinelWorld (n + 1) stBase ⟨g, l⟩ "GET" u (some hAuth) =
        issue_request sentinelWorld n stBase ⟨g + 1, l + 1⟩ "GET" u (some hAuth) := rfl
    rw [step, ih]
    have h1 : g + 1 + n = g + (n + 1) := by omega
    have h2 : l + 1 + n = l + (n + 1) := by omega
    rw [h1, h2]

/-- C1: the claim says the expired-token retry is capped at one, with a
second sentinel-bearing body returned as-is and no third attempt. The
code has no such cap: the attemps parameter of issue_request is never
read, so against a server whose every GET body carries the sentinel and
whose logins all succeed, a run given fuel for n attempts issues n GETs
and n logins and is still recursing; in particular at fuel 3 a third
GET and a third login occur, which the claim forbids. -/
theorem claim_c1_retry_unbounded (fuel : Nat) :
    get_organizations sentinelWorld fuel stBase ns0 =
    (stBase, ⟨fuel, fuel⟩, .diverge) := by
  cases fuel with
  | zero => rfl
  | succ n =>
    have step : get_organizations sentinelWorld (n + 1) stBase ns0 =
        issue_request sentinelWorld n stBase ⟨1, 1⟩ "GET"
          (stBase.base_url ++ organizations_url) (some hAuth) := rfl
    rw [step, sentinel_round]
    have h1 : 1 + n = n + 1 := by omega
    rw [h1]

/-- C2 counterexample: a login response with the 2xx status 201 and
body bad credentials is not treated as success, contradicting the
claim that every 2xx response is a successful login. -/
theorem claim_c2_counterexample :
    login badLoginWorld stBase ns0 =
      (stBase, ⟨0, 1⟩, .error (.loginError "bad credentials"))
    ∧ 200 ≤ 201 ∧ 201 < 300 :=
  ⟨rfl, by omega, by omega⟩

/-- C2 amended: login fails with a LoginError carrying the raw response
text exactly when the login POST returns a status other than 200, and
only a 200 response is treated as success, storing and returning the
parsed body. -/
theorem claim_c2_login_error_iff (w : World) (st : ClientState) (ns : NetState) (te : String)
    (hte : jget st.server_api_info "token_endpoint" = some te) :
    ((login w st ns).2.2 = .error (.loginError (w.loginResponse ns.loginCount).text)
      ↔ (w.loginResponse ns.loginCount).status_code ≠ 200)
    ∧ ((w.loginResponse ns.loginCount).status_code = 200 →
        (login w st ns).2.2 = .ok (w.loginResponse ns.loginCount).jsonBody) := by
  unfold login loginRequest
  rw [hte]
  dsimp only
  unfold loginRespond
  by_cases hs : (w.loginResponse ns.loginCount).status_code = 200
  · simp [hs]
  · simp [hs]

/-- Witness for C2 amended at a concrete 401 rejection. -/
theorem claim_c2_witness :
    jget stBase.server_api_info "token_endpoint" = some "https://uaa.example.com"
    ∧ (((login unauthorizedWorld stBase ns0).2.2
          = .error (.loginError (unauthorizedWorld.loginResponse ns0.loginCount).text)
        ↔ (unauthorizedWorld.loginResponse ns0.loginCount).status_code ≠ 200)
      ∧ ((unauthorizedWorld.loginResponse ns0.loginCount).status_code = 200 →
          (login unauthorizedWorld stBase ns0).2.2
            = .ok (unauthorizedWorld.loginResponse ns0.loginCount).jsonBody)) :=
  ⟨rfl, claim_c2_login_error_iff unauthorizedWorld stBase ns0 "https://uaa.example.com" rfl⟩

/-- C3: with no session (auth_data None, as before any login or after
logout), any dispatch fails with NotLoggedIn, returns the state
unchanged, and issues no network request: the counters come back
untouched. -/
theorem claim_c3_not_logged_in (w : World) (fuel : Nat) (st : ClientState) (ns : NetState)
    (method url : String) :
    issue_request w (fuel + 1) (logout st) ns method url none =
      (logout st, ns, .err .notLoggedIn)
    ∧ (st.auth_data = none →
        issue_request w (fuel + 1) st ns method url none = (st, ns, .err .notLoggedIn)) := by
  constructor
  · rfl
  · intro h
    unfold issue_request
    dsimp only
    simp [generic_request_headers, check_logged_in, h]

/-- Witness for C3: a freshly constructed client and a logged-out
client both fail with NotLoggedIn with zero requests issued. -/
theorem claim_c3_witness :
    (mkClient "u" "p" "https://api.example.com"
        ⟨200, "", [("token_endpoint", "https://uaa.example.com")]⟩).auth_data = none
    ∧ get_organizations okWorld 1 (logout stBase) ns0 =
        (logout stBase, ns0, .err .notLoggedIn)
    ∧ get_organizations okWorld 1
        (mkClient "u" "p" "https://api.example.com"
          ⟨200, "", [("token_endpoint", "https://uaa.example.com")]⟩) ns0 =
        (mkClient "u" "p" "https://api.example.com"
          ⟨200, "", [("token_endpoint", "https://uaa.example.com")]⟩, ns0, .err .notLoggedIn) :=
  ⟨rfl,
   (claim_c3_not_logged_in okWorld 0 stBase ns0 "GET"
     ((logout stBase).base_url ++ organizations_url)).1,
   (claim_c3_not_logged_in okWorld 0
     (mkClient "u" "p" "https://api.example.com"
       ⟨200, "", [("token_endpoint", "https://uaa.example.com")]⟩) ns0 "GET"
     ((mkClient "u" "p" "https://api.example.com"
       ⟨200, "", [("token_endpoint", "https://uaa.example.com")]⟩).base_url
       ++ organizations_url)).2 rfl⟩

/-- C4: after a successful login whose body carries token_type t and
access_token a, the authenticated request headers are the fixed base
headers plus Authorization set to t, a space, and a: Authorization
looks up to exactly that string, and Accept, Content-Type and
User-Agent keep their fixed values. -/
theorem claim_c4_auth_headers (w : World) (st st1 : ClientState) (ns ns1 : NetState)
    (body : Jobj) (t a : String)
    (hlogin : login w st ns = (st1, ns1, .ok body))
    (ht : jget body "token_type" = some t)
    (ha : jget body "access_token" = some a) :
    generic_request_headers st1 = .ok (hset get_headers "Authorization" (t ++ " " ++ a))
    ∧ jget (hset get_headers "Authorization" (t ++ " " ++ a)) "Authorization"
        = some (t ++ " " ++ a)
    ∧ jget (hset get_headers "Authorization" (t ++ " " ++ a)) "Accept"
        = some "application/json"
    ∧ jget (hset get_headers "Authorization" (t ++ " " ++ a)) "Content-Type"
        = some "application/json"
    ∧ jget (hset get_headers "Authorization" (t ++ " " ++ a)) "User-Agent"
        = some USER_AGENT := by
  obtain ⟨hst, hbody, hns⟩ := login_ok_eq hlogin
  refine ⟨?_, rfl, rfl, rfl, rfl⟩
  subst hst
  simp [generic_request_headers, check_logged_in, authHeaderValue,
    jget_isEmpty_false ht, ht, ha]

/-- Witness for C4 at a concrete login against okWorld. -/
theorem claim_c4_witness :
    login okWorld (logout stBase) ns0 = (stBase, ⟨0, 1⟩, .ok tokBody)
    ∧ jget tokBody "token_type" = some "bearer"
    ∧ jget tokBody "access_token" = some "tok123"
    ∧ (generic_request_headers stBase
          = .ok (hset get_headers "Authorization" ("bearer" ++ " " ++ "tok123"))
        ∧ jget (hset get_headers "Authorization" ("bearer" ++ " " ++ "tok123")) "Authorization"
            = some ("bearer" ++ " " ++ "tok123")
        ∧ jget (hset get_headers "Authorization" ("bearer" ++ " " ++ "tok123")) "Accept"
            = some "application/json"
        ∧ jget (hset get_headers "Authorization" ("bearer" ++ " " ++ "tok123")) "Content-Type"
            = some "application/json"
        ∧ jget (hset get_headers "Authorization" ("bearer" ++ " " ++ "tok123")) "User-Agent"
            = some USER_AGENT) :=
  ⟨rfl, rfl, rfl,
   claim_c4_auth_headers okWorld (logout stBase) stBase ns0 ⟨0, 1⟩ tokBody
     "bearer" "tok123" rfl rfl rfl⟩

/-- C5: the login POST carries exactly the form-encoded body
grant_type=password&password=PASSWORD&scope=&username=USERNAME built
by plain concatenation, with Content-Type overridden to
application/x-www-form-urlencoded, Authorization overridden to the
fixed Basic Y2Y6 value, and the remaining fixed headers kept. -/
theorem claim_c5_login_request (st : ClientState) (te : String)
    (hte : jget st.server_api_info "token_endpoint" = some te) :
    ∃ req, loginRequest st = .ok req
      ∧ req.payload = "grant_type=password&password=" ++ st.password
          ++ "&scope=&username=" ++ st.username
      ∧ jget req.headers "Authorization" = some "Basic Y2Y6"
      ∧ jget req.headers "Content-Type" = some "application/x-www-form-urlencoded"
      ∧ jget req.headers "Accept" = some "application/json"
      ∧ jget req.headers "User-Agent" = some USER_AGENT := by
  unfold loginRequest
  rw [hte]
  exact ⟨_, rfl, rfl, rfl, rfl, rfl, rfl⟩

/-- Witness for C5 at the fixture client with username u, password p. -/
theorem claim_c5_witness :
    ∃ req, loginRequest stBase = .ok req
      ∧ req.payload = "grant_type=password&password=p&scope=&username=u"
      ∧ jget req.headers "Authorization" = some "Basic Y2Y6"
      ∧ jget req.headers "Content-Type" = some "application/x-www-form-urlencoded"
      ∧ jget req.headers "Accept" = some "application/json"
      ∧ jget req.headers "User-Agent" = some USER_AGENT :=
  claim_c5_login_request stBase "https://uaa.example.com" rfl

/-- C6: the login POST goes to the token_endpoint of the server info
fetched at construction, concatenated with the fixed /oauth/token
path. -/
theorem claim_c6_login_url (st : ClientState) (te : String)
    (hte : jget st.server_api_info "token_endpoint" = some te) :
    ∃ req, loginRequest st = .ok req
      ∧ req.url = te ++ auth_token_url
      ∧ auth_token_url = "/oauth/token" := by
  unfold loginRequest
  rw [hte]
  exact ⟨_, rfl, rfl, rfl⟩

/-- Witness for C6: token_endpoint https://uaa.example.com gives the
login url https://uaa.example.com/oauth/token. -/
theorem claim_c6_witness :
    ∃ req, loginRequest stBase = .ok req
      ∧ req.url = "https://uaa.example.com/oauth/token"
      ∧ auth_token_url = "/oauth/token" :=
  claim_c6_login_url stBase "https://uaa.example.com" rfl

/-- C7: a successful login replaces the whole session at once with the
full parsed response body (token_type and access_token are never
written separately), logout clears the session unconditionally, is a
total function, and is idempotent. -/
theorem claim_c7_session_lifecycle (w : World) (st st1 : ClientState) (ns ns1 : NetState)
    (body : Jobj) :
    (login w st ns = (st1, ns1, .ok body) →
      st1 = { st with auth_data := some body }
      ∧ body = (w.loginResponse ns.loginCount).jsonBody)
    ∧ (logout st).auth_data = none
    ∧ logout (logout st) = logout st :=
  ⟨fun h => ⟨(login_ok_eq h).1, (login_ok_eq h).2.1⟩, rfl, rfl⟩

/-- Witness for C7 at a concrete login and logout. -/
theorem claim_c7_witness :
    login okWorld (logout stBase) ns0 = (stBase, ⟨0, 1⟩, .ok tokBody)
    ∧ (stBase = { logout stBase with auth_data := some tokBody }
        ∧ tokBody = (okWorld.loginResponse ns0.loginCount).jsonBody)
    ∧ (logout (logout stBase)).auth_data = none
    ∧ logout (logout (logout stBase)) = logout (logout stBase) :=
  ⟨rfl,
   (claim_c7_session_lifecycle okWorld (logout stBase) stBase ns0 ⟨0, 1⟩ tokBody).1 rfl,
   (claim_c7_session_lifecycle okWorld (logout stBase) stBase ns0 ⟨0, 1⟩ tokBody).2⟩

/-- C8: credentials, base url and the server info document are never
written after construction: logout, login and issue_request each
return a state identical to the input except possibly at auth_data. -/
theorem claim_c8_frame (w : World) (fuel : Nat) (st : ClientState) (ns : NetState)
    (method url : String) :
    logout st = { st with auth_data := none }
    ∧ (∀ st1 ns1 out, login w st ns = (st1, ns1, out) →
        st1 = { st with auth_data := st1.auth_data })
    ∧ (∀ st1 ns1 res, issue_request w fuel st ns method url none = (st1, ns1, res) →
        st1 = { st with auth_data := st1.auth_data }) :=
  ⟨rfl,
   fun _ _ _ h => login_frame h,
   fun _ _ _ h => issue_request_frame fuel st ns method url none h⟩

/-- Witness for C8 at a concrete login and a concrete dispatch. -/
theorem claim_c8_witness :
    login okWorld stBase ns0 = (stBase, ⟨0, 1⟩, .ok tokBody)
    ∧ issue_request okWorld 5 stBase ns0 "GET" "https://api.example.com/v2/organizations" none
        = (stBase, ⟨1, 0⟩, .ok [("name", "org1")])
    ∧ logout stBase = { stBase with auth_data := none }
    ∧ stBase = { stBase with auth_data := stBase.auth_data } :=
  ⟨rfl, rfl,
   (claim_c8_frame okWorld 5 stBase ns0 "GET" "https://api.example.com/v2/organizations").1,
   (claim_c8_frame okWorld 5 stBase ns0 "GET"
     "https://api.example.com/v2/organizations").2.2 stBase ⟨1, 0⟩
     (.ok [("name", "org1")]) rfl⟩

/-- C9: a login answered 200 with an empty JSON object succeeds yet
stores a falsy session: auth_data holds the empty object, and every
later authenticated call fails with NotLoggedIn because the logged-in
check tests truthiness, not mere presence. -/
theorem claim_c9_empty_session (w : World) (st st1 : ClientState) (ns ns1 : NetState)
    (fuel : Nat) (method url : String)
    (hlogin : login w st ns = (st1, ns1, .ok [])) :
    st1.auth_data = some []
    ∧ generic_request_headers st1 = .error .notLoggedIn
    ∧ issue_request w (fuel + 1) st1 ns1 method url none = (st1, ns1, .err .notLoggedIn) := by
  obtain ⟨hst, hbody, hns⟩ := login_ok_eq hlogin
  subst hst
  exact ⟨rfl, rfl, rfl⟩

/-- Witness for C9: a concrete 200 login with empty body. -/
theorem claim_c9_witness :
    login emptyLoginWorld stBase ns0 =
      ({ stBase with auth_data := some [] }, ⟨0, 1⟩, .ok [])
    ∧ ({ stBase with auth_data := some ([] : Jobj) }.auth_data = some []
        ∧ generic_request_headers { stBase with auth_data := some [] } = .error .notLoggedIn
        ∧ issue_request emptyLoginWorld 1 { stBase with auth_data := some [] } ⟨0, 1⟩
            "GET" "https://api.example.com/v2/organizations" none
          = ({ stBase with auth_data := some [] }, ⟨0, 1⟩, .err .notLoggedIn)) :=
  ⟨rfl,
   claim_c9_empty_session emptyLoginWorld stBase { stBase with auth_data := some [] }
     ns0 ⟨0, 1⟩ 0 "GET" "https://api.example.com/v2/organizations" rfl⟩

/-- C10: a login rejected with a non-200 status raises LoginError
before the session assignment, so the whole client state, auth_data
included, comes back exactly as it was. -/
theorem claim_c10_failed_login_keeps_session (w : World) (st st1 : ClientState)
    (ns ns1 : NetState) (e : CFError)
    (h : login w st ns = (st1, ns1, .error e)) :
    st1 = st ∧ st1.auth_data = st.auth_data := by
  have heq := login_error_eq h
  exact ⟨heq, by rw [heq]⟩

/-- Witness for C10: a 401 rejection of a re-login leaves the prior
session in place. -/
theorem claim_c10_witness :
    login unauthorizedWorld stBase ns0 =
      (stBase, ⟨0, 1⟩, .error (.loginError "unauthorized"))
    ∧ (stBase = stBase ∧ stBase.auth_data = stBase.auth_data) :=
  ⟨rfl,
   claim_c10_failed_login_keeps_session unauthorizedWorld stBase stBase ns0 ⟨0, 1⟩
     (.loginError "unauthorized") rfl⟩

end CloudFoundry
